import Mathlib

/-!
Verification development for the CampusNav lost-and-found server
(`src/server.js`, with the enhanced OTP-gated resolve route from the
related revision file).  The in-memory state (OTP store, verified-email
set, quota counters) and the Mongo-backed item collection are embedded
as association lists; each Express route handler becomes a pure state
transformer returning a result code and the successor state.  Wall-clock
time (`Date.now()`), the generated OTP string, and the success of mail
dispatch are passed in as explicit parameters.
-/

namespace CampusNav

/-- An entry of `otpStore`: `{ otp, expiry }` as set by `/api/request-otp`
(`expiry = Date.now() + 600000`, milliseconds). -/
structure OtpRecord where
  otp : String
  expiry : Nat
deriving Repr, DecidableEq

/-- An element of an item's `seenBy` array. -/
structure SeenEntry where
  name : String
  phone : String
  details : String
  email : String
deriving Repr, DecidableEq

/-- An element of an item's `claims` array. -/
structure ClaimEntry where
  name : String
  email : String
  details : String
deriving Repr, DecidableEq

/-- An item document of the `Lost-found` collection (`itemSchema` in
`server.js`): the fields the routes read or write.  `status` is a plain
string; the schema's enum validation is applied at save time via
`statusEnum`. -/
structure Item where
  name : String
  description : String
  location : String
  status : String
  photo : Option String
  yourName : String
  yourEmail : String
  seenBy : List SeenEntry
  claims : List ClaimEntry
deriving Repr, DecidableEq

/-- The legal values of `status` in `itemSchema`
(`enum: ['lost', 'found', 'resolved']`, server.js line 52). -/
def statusEnum : List String := ["lost", "found", "resolved"]

/-- The `status` enum of the older schema revision
(`enum: ['lost', 'found']`, second revision in server.js, line 504). -/
def statusEnumLegacy : List String := ["lost", "found"]

/-- Lookup in an association list, the embedding of `Map.get`. -/
def lookupA {α : Type} : List (String × α) → String → Option α
  | [], _ => none
  | (k', v) :: rest, k => if k' == k then some v else lookupA rest k

/-- Insert-or-overwrite in an association list, the embedding of `Map.set`. -/
def setA {α : Type} : List (String × α) → String → α → List (String × α)
  | [], k, v => [(k, v)]
  | (k', v') :: rest, k, v =>
      if k' == k then (k, v) :: rest else (k', v') :: setA rest k v

/-- Key removal from an association list, the embedding of `Map.delete`. -/
def delA {α : Type} : List (String × α) → String → List (String × α)
  | [], _ => []
  | (k', v) :: rest, k =>
      if k' == k then delA rest k else (k', v) :: delA rest k

/-- Membership test on a list of strings, the embedding of `Set.has`. -/
def memS : List String → String → Bool
  | [], _ => false
  | x :: rest, e => x == e || memS rest e

/-- Element insertion, the embedding of `Set.add` (no duplicate entries). -/
def addS (l : List String) (e : String) : List String :=
  if memS l e then l else e :: l

/-- Element removal, the embedding of `Set.delete`. -/
def delS : List String → String → List String
  | [], _ => []
  | x :: rest, e => if x == e then delS rest e else x :: delS rest e

/-- Counter read with default, the embedding of `counts.get(email) || 0`. -/
def countOf (m : List (String × Nat)) (e : String) : Nat :=
  (lookupA m e).getD 0

/-- The whole mutable state of the server process: the two verification
stores, the two quota counters and the persisted item collection keyed
by document id. -/
structure ServerState where
  otpStore : List (String × OtpRecord)
  verifiedEmails : List String
  claimCounts : List (String × Nat)
  seenCounts : List (String × Nat)
  items : List (String × Item)
deriving Repr, DecidableEq

/-- The empty process state: fresh maps and an empty collection. -/
def emptyState : ServerState :=
  { otpStore := [], verifiedEmails := [], claimCounts := [],
    seenCounts := [], items := [] }

/-! ### The institutional-email pattern

`/^[a-zA-Z0-9]+[0-9]{4}\.(?:be|btech|mtech|phd)[a-zA-Z]{2,4}[0-9]{2}@chitkara\.edu\.in$/`
used by the `/seen` and `/claim` routes.  The matcher below decides
whether any decomposition of the string fits the anchored pattern, which
is exactly what the backtracking JavaScript engine computes for a
boolean `.match` test. -/

/-- Character class `[a-zA-Z0-9]`. -/
def isAlnumChar (c : Char) : Bool := c.isAlpha || c.isDigit

/-- The fixed domain tail `@chitkara.edu.in` of the pattern. -/
def domainTail : List Char := "@chitkara.edu.in".data

/-- Match `[0-9]{2}@chitkara.edu.in$`. -/
def matchEnd (l : List Char) : Bool :=
  match l with
  | a :: b :: rest => a.isDigit && b.isDigit && rest == domainTail
  | _ => false

/-- Match `[a-zA-Z]{k}` then `matchEnd` on the remainder. -/
def matchMid (k : Nat) (l : List Char) : Bool :=
  (l.take k).length == k && (l.take k).all Char.isAlpha && matchEnd (l.drop k)

/-- Match `[a-zA-Z]{2,4}` then `matchEnd` (any of the three widths). -/
def matchMidAny (l : List Char) : Bool :=
  matchMid 2 l || matchMid 3 l || matchMid 4 l

/-- Strip a literal keyword off the front of the input, if present. -/
def stripKw : List Char → List Char → Option (List Char)
  | [], l => some l
  | _, [] => none
  | p :: ps, c :: cs => if c == p then stripKw ps cs else none

/-- Match the alternation `(?:be|btech|mtech|phd)` then the rest of the
pattern. -/
def matchKw (l : List Char) : Bool :=
  (match stripKw "be".data l with
   | some r => matchMidAny r
   | none => false) ||
  (match stripKw "btech".data l with
   | some r => matchMidAny r
   | none => false) ||
  (match stripKw "mtech".data l with
   | some r => matchMidAny r
   | none => false) ||
  (match stripKw "phd".data l with
   | some r => matchMidAny r
   | none => false)

/-- Match `[0-9]{4}\.` then the keyword part. -/
def matchDigits4Dot (l : List Char) : Bool :=
  match l with
  | d1 :: d2 :: d3 :: d4 :: dot :: rest =>
      d1.isDigit && d2.isDigit && d3.isDigit && d4.isDigit &&
      dot == '.' && matchKw rest
  | _ => false

/-- Match `[a-zA-Z0-9]+` (at least one character already consumed at each
recursive step) followed by the digit block: tries every split point, as
regex backtracking does. -/
def matchLocal : List Char → Bool
  | [] => false
  | c :: rest => isAlnumChar c && (matchDigits4Dot rest || matchLocal rest)

/-- The full anchored institutional-email test used by `/seen` and
`/claim` (`email.match(...)` is truthy). -/
def chitkaraEmailValid (s : String) : Bool := matchLocal s.data

/-! ### Route handlers -/

/-- Result of `POST /api/request-otp`. -/
inductive OtpRequestResult where
  | badRequest
  | deliveryFailed
  | sent
deriving Repr, DecidableEq

/-- `POST /api/request-otp` (server.js 141-156).  The generated code and
the clock are parameters; `sendOk` says whether `sendOTPEmail` resolves.
The record is stored only after a successful send (the `await` precedes
`otpStore.set`); a failed send jumps to the catch block with the store
untouched. -/
def requestOtp (st : ServerState) (email otp : String) (now : Nat)
    (sendOk : Bool) : OtpRequestResult × ServerState :=
  if email = "" then (.badRequest, st)
  else if sendOk then
    (.sent, { st with otpStore := setA st.otpStore email ⟨otp, now + 600000⟩ })
  else (.deliveryFailed, st)

/-- Result of `POST /api/verify-otp`. -/
inductive VerifyOtpResult where
  | badRequest
  | notFound
  | expired
  | mismatch
  | verified
deriving Repr, DecidableEq

/-- `POST /api/verify-otp` (server.js 158-181): missing fields, missing
record, expiry (deleting the record), code mismatch (keeping the
record), and success (deleting the record and adding the email to the
verified set). -/
def verifyOtp (st : ServerState) (email otp : String) (now : Nat) :
    VerifyOtpResult × ServerState :=
  if email = "" ∨ otp = "" then (.badRequest, st)
  else
    match lookupA st.otpStore email with
    | none => (.notFound, st)
    | some r =>
        if now > r.expiry then
          (.expired, { st with otpStore := delA st.otpStore email })
        else if otp ≠ r.otp then (.mismatch, st)
        else (.verified,
              { st with verifiedEmails := addS st.verifiedEmails email,
                        otpStore := delA st.otpStore email })

/-- Result of `POST /api/items`. -/
inductive CreateResult where
  | missingFields
  | notVerified
  | uploadError
  | saveError
  | created
deriving Repr, DecidableEq

/-- `POST /api/items` (server.js 203-247).  `newId` is the id the store
assigns to the document; `uploadOk` says whether the Cloudinary upload
of `photo` (when there is one) succeeds.  Field presence is checked
first, then verified-set membership; the schema's status enum is
enforced by mongoose at `save()` (a violation lands in the catch block,
before the verified entry is deleted); on success the document is stored
and the verified entry is consumed. -/
def createItem (st : ServerState) (newId : String)
    (name description location status yourName yourEmail : String)
    (photo : Option String) (uploadOk : Bool) : CreateResult × ServerState :=
  if name = "" ∨ description = "" ∨ location = "" ∨ status = "" ∨
     yourName = "" ∨ yourEmail = "" then (.missingFields, st)
  else if !(memS st.verifiedEmails yourEmail) then (.notVerified, st)
  else if photo.isSome && !uploadOk then (.uploadError, st)
  else if !(memS statusEnum status) then (.saveError, st)
  else
    (.created,
     { st with
         items := setA st.items newId
           ⟨name, description, location, status, photo, yourName, yourEmail,
            [], []⟩,
         verifiedEmails := delS st.verifiedEmails yourEmail })

/-- Result of `POST /api/items/:id/seen`. -/
inductive SeenResult where
  | invalidEmail
  | quotaExceeded
  | notFound
  | submitted (notified : Bool)
deriving Repr, DecidableEq

/-- `POST /api/items/:id/seen` (server.js 273-328): institutional-email
check, quota check against `seenCounts` (limit 2), `findByIdAndUpdate`
pushing onto `seenBy` (404 when the item is missing, before any counter
mutation), then the counter increment; mail failure only clears the
`notificationSent` flag. -/
def recordSeen (st : ServerState) (itemId name phone details email : String)
    (mailOk : Bool) : SeenResult × ServerState :=
  if !(chitkaraEmailValid email) then (.invalidEmail, st)
  else
    let sc := countOf st.seenCounts email
    if sc ≥ 2 then (.quotaExceeded, st)
    else
      match lookupA st.items itemId with
      | none => (.notFound, st)
      | some it =>
          (.submitted mailOk,
           { st with
               items := setA st.items itemId
                 { it with seenBy := it.seenBy ++ [⟨name, phone, details, email⟩] },
               seenCounts := setA st.seenCounts email (sc + 1) })

/-- Result of `POST /api/items/:id/claim`. -/
inductive ClaimResult where
  | invalidEmail
  | notVerified
  | quotaExceeded
  | notFound
  | submitted (notified : Bool)
deriving Repr, DecidableEq

/-- `POST /api/items/:id/claim` (server.js 330-390): institutional-email
check, verified-set membership check (`has`, the entry is not removed),
quota check against `claimCounts` (limit 2), push onto `claims` (404
when the item is missing, before any counter mutation), then the counter
increment. -/
def recordClaim (st : ServerState) (itemId name email details : String)
    (mailOk : Bool) : ClaimResult × ServerState :=
  if !(chitkaraEmailValid email) then (.invalidEmail, st)
  else if !(memS st.verifiedEmails email) then (.notVerified, st)
  else
    let cc := countOf st.claimCounts email
    if cc ≥ 2 then (.quotaExceeded, st)
    else
      match lookupA st.items itemId with
      | none => (.notFound, st)
      | some it =>
          (.submitted mailOk,
           { st with
               items := setA st.items itemId
                 { it with claims := it.claims ++ [⟨name, email, details⟩] },
               claimCounts := setA st.claimCounts email (cc + 1) })

/-- Result of `POST /api/items/:id/resolve` (primary revision). -/
inductive ResolveResult where
  | notFound
  | unauthorized
  | resolvedOk (notified : Bool)
deriving Repr, DecidableEq

/-- `POST /api/items/:id/resolve` (server.js 393-430): looks the item
up, requires the requester email to equal `item.yourEmail`, then sets
`status = 'resolved'` and saves.  No verified-set check, no consumption,
and no check of the current status; mail failure only clears the
`notificationSent` flag. -/
def resolveItem (st : ServerState) (itemId email : String) (mailOk : Bool) :
    ResolveResult × ServerState :=
  match lookupA st.items itemId with
  | none => (.notFound, st)
  | some it =>
      if email ≠ it.yourEmail then (.unauthorized, st)
      else (.resolvedOk mailOk,
            { st with items := setA st.items itemId { it with status := "resolved" } })

/-- Result of the enhanced resolve route. -/
inductive ResolveEnhancedResult where
  | badRequest
  | notFound
  | unauthorized
  | notVerified
  | resolvedOk
deriving Repr, DecidableEq

/-- Enhanced `POST /api/items/:id/resolve` (the related revision,
part_000 632-703): input presence, item lookup, reporter-email match,
verified-set membership, then `status = 'resolved'`, save, and
`verifiedEmails.delete(email)`; the confirmation mail's failure is
swallowed. -/
def resolveItemEnhanced (st : ServerState) (itemId email : String) :
    ResolveEnhancedResult × ServerState :=
  if email = "" ∨ itemId = "" then (.badRequest, st)
  else
    match lookupA st.items itemId with
    | none => (.notFound, st)
    | some it =>
        if email ≠ it.yourEmail then (.unauthorized, st)
        else if !(memS st.verifiedEmails email) then (.notVerified, st)
        else (.resolvedOk,
              { st with
                  items := setA st.items itemId { it with status := "resolved" },
                  verifiedEmails := delS st.verifiedEmails email })

/-- Possible outputs of `generateOTP` (server.js 115-117):
`crypto.randomInt(100000, 999999)` returns a uniformly random integer
`n` with `min ≤ n < max` — the upper bound is exclusive. -/
def generateOTPRange : Finset Nat := Finset.Ico 100000 999999

/-! ### Sample data for concrete runs -/

/-- A string accepted by the institutional-email pattern. -/
def sampleEmail : String := "john1234.becse23@chitkara.edu.in"

/-- A second accepted institutional email, distinct from `sampleEmail`. -/
def otherEmail : String := "mary5678.btechece21@chitkara.edu.in"

/-- A sample open item reported by `sampleEmail`. -/
def sampleItem : Item :=
  { name := "Wallet", description := "Black leather wallet",
    location := "Library", status := "lost", photo := none,
    yourName := "John", yourEmail := sampleEmail, seenBy := [], claims := [] }

/-- A state holding only `sampleItem` under id `item1`. -/
def stItem : ServerState :=
  { emptyState with items := [("item1", sampleItem)] }

/-- `stItem` with `sampleEmail` in the verified set. -/
def stItemVerified : ServerState :=
  { stItem with verifiedEmails := [sampleEmail] }

/-- A state in which `item1` is already resolved. -/
def stResolved : ServerState :=
  { emptyState with items := [("item1", { sampleItem with status := "resolved" })] }

/-! ### Store lemmas -/

theorem lookupA_setA_self {α : Type} (m : List (String × α)) (k : String) (v : α) :
    lookupA (setA m k v) k = some v := by
  induction m with
  | nil => simp [setA, lookupA]
  | cons p rest ih =>
      obtain ⟨k', v'⟩ := p
      by_cases h : (k' == k) = true
      · simp [setA, h, lookupA]
      · simp [setA, h, lookupA, ih]

theorem memS_delS_self (l : List String) (e : String) :
    memS (delS l e) e = false := by
  induction l with
  | nil => simp [delS, memS]
  | cons x rest ih =>
      by_cases h : (x == e) = true
      · simp [delS, h, ih]
      · simp [delS, h, memS, ih]

theorem countOf_setA_self (m : List (String × Nat)) (k : String) (v : Nat) :
    countOf (setA m k v) k = v := by
  simp [countOf, lookupA_setA_self]

/-- Characterization of an admitted sighting submission: valid email,
counter below the limit, item present. -/
theorem recordSeen_ok (st : ServerState)
    (itemId name phone details email : String) (mailOk : Bool)
    (it : Item) (c : Nat)
    (hval : chitkaraEmailValid email = true)
    (hc : countOf st.seenCounts email = c) (hlt : c < 2)
    (hitem : lookupA st.items itemId = some it) :
    recordSeen st itemId name phone details email mailOk =
      (.submitted mailOk,
       { st with
           items := setA st.items itemId
             { it with seenBy := it.seenBy ++ [⟨name, phone, details, email⟩] },
           seenCounts := setA st.seenCounts email (c + 1) }) := by
  have hge : ¬ countOf st.seenCounts email ≥ 2 := by omega
  simp [recordSeen, hval, hitem, hc, hge]
  omega

/-- Characterization of a quota-rejected sighting submission: the state
is fully unchanged. -/
theorem recordSeen_quota (st : ServerState)
    (itemId name phone details email : String) (mailOk : Bool)
    (hval : chitkaraEmailValid email = true)
    (hc : countOf st.seenCounts email ≥ 2) :
    recordSeen st itemId name phone details email mailOk =
      (.quotaExceeded, st) := by
  simp [recordSeen, hval, hc]

/-- Characterization of an admitted claim submission: valid email,
verified-set membership, counter below the limit, item present. -/
theorem recordClaim_ok (st : ServerState)
    (itemId name email details : String) (mailOk : Bool)
    (it : Item) (c : Nat)
    (hval : chitkaraEmailValid email = true)
    (hver : memS st.verifiedEmails email = true)
    (hc : countOf st.claimCounts email = c) (hlt : c < 2)
    (hitem : lookupA st.items itemId = some it) :
    recordClaim st itemId name email details mailOk =
      (.submitted mailOk,
       { st with
           items := setA st.items itemId
             { it with claims := it.claims ++ [⟨name, email, details⟩] },
           claimCounts := setA st.claimCounts email (c + 1) }) := by
  have hge : ¬ countOf st.claimCounts email ≥ 2 := by omega
  simp [recordClaim, hval, hver, hitem, hc, hge]
  omega

/-- Characterization of a quota-rejected claim submission: the state is
fully unchanged. -/
theorem recordClaim_quota (st : ServerState)
    (itemId name email details : String) (mailOk : Bool)
    (hval : chitkaraEmailValid email = true)
    (hver : memS st.verifiedEmails email = true)
    (hc : countOf st.claimCounts email ≥ 2) :
    recordClaim st itemId name email details mailOk =
      (.quotaExceeded, st) := by
  simp [recordClaim, hval, hver, hc]

/-! ### Claim theorems -/

/-- C5: `POST /api/verify-otp` fails `NotFound` (state unchanged) when
no OTP record exists for the email; fails `Expired` and deletes the
record when the clock is past the stored expiry; fails `Mismatch` and
retains the record when the presented code differs; and on success
deletes the record and adds the email to the verified set. -/
theorem C5_verify_otp_branches (st : ServerState) (email otp : String)
    (now : Nat) (he : email ≠ "") (ho : otp ≠ "") :
    (lookupA st.otpStore email = none →
       verifyOtp st email otp now = (.notFound, st)) ∧
    (∀ r : OtpRecord, lookupA st.otpStore email = some r →
       (now > r.expiry →
          verifyOtp st email otp now =
            (.expired, { st with otpStore := delA st.otpStore email })) ∧
       (¬ now > r.expiry → otp ≠ r.otp →
          verifyOtp st email otp now = (.mismatch, st)) ∧
       (¬ now > r.expiry → otp = r.otp →
          verifyOtp st email otp now =
            (.verified,
             { st with verifiedEmails := addS st.verifiedEmails email,
                       otpStore := delA st.otpStore email }))) := by
  have hcond : ¬ (email = "" ∨ otp = "") := by
    rintro (h | h)
    · exact he h
    · exact ho h
  refine ⟨?_, ?_⟩
  · intro hl
    simp [verifyOtp, hcond, hl]
  · intro r hl
    refine ⟨?_, ?_, ?_⟩
    · intro hx
      simp [verifyOtp, hcond, hl, hx]
    · intro hx hm
      simp [verifyOtp, hcond, hl, hx, hm]
    · intro hx hm
      simp [verifyOtp, hcond, hl, hx, hm]
      exact ⟨he, hm ▸ ho⟩

set_option maxRecDepth 4000 in
/-- C5 witness: a concrete successful verification consuming the stored
record and marking the email verified. -/
theorem C5_verify_otp_branches_witness :
    verifyOtp { emptyState with otpStore := [("a@x", ⟨"111111", 600000⟩)] }
        "a@x" "111111" 0 =
      (.verified, { emptyState with verifiedEmails := ["a@x"] }) := by
  have h := C5_verify_otp_branches
    { emptyState with otpStore := [("a@x", ⟨"111111", 600000⟩)] }
    "a@x" "111111" 0 (by decide) (by decide)
  have h2 := (h.2 ⟨"111111", 600000⟩ (by decide)).2.2 (by decide) rfl
  rw [h2]
  decide

/-- C6 counterexample: an OTP issued at `t = 0` carries
`expiry = 600000`; consuming it with the correct code exactly at
`issuedAt + 10min` (`now = 600000`) succeeds, while the claim says any
consumption at or after the boundary fails `Expired`. -/
theorem C6_counterexample :
    (verifyOtp (requestOtp emptyState "a@x" "222222" 0 true).2
        "a@x" "222222" 600000).1 = .verified := by decide

/-- C6 (amended): for an OTP issued at time `t` and presented with the
correct code, consumption succeeds at or before `t + 10min` and fails
`Expired` strictly after that boundary (the code tests
`Date.now() > expiry`). -/
theorem C6_expiry_boundary (st : ServerState) (email otp : String)
    (t now : Nat) (he : email ≠ "") (ho : otp ≠ "") :
    (now ≤ t + 600000 →
       (verifyOtp (requestOtp st email otp t true).2 email otp now).1 =
         .verified) ∧
    (now > t + 600000 →
       (verifyOtp (requestOtp st email otp t true).2 email otp now).1 =
         .expired) := by
  have hcond : ¬ (email = "" ∨ otp = "") := by
    rintro (h | h)
    · exact he h
    · exact ho h
  have hreq : (requestOtp st email otp t true).2 =
      { st with otpStore := setA st.otpStore email ⟨otp, t + 600000⟩ } := by
    simp [requestOtp, he]
  constructor
  · intro hle
    have hx : ¬ now > t + 600000 := by omega
    simp [hreq, verifyOtp, hcond, lookupA_setA_self, hx]
  · intro hgt
    simp [hreq, verifyOtp, hcond, lookupA_setA_self, hgt]

/-- C6 witness: one millisecond past the boundary the same OTP fails
`Expired`. -/
theorem C6_expiry_boundary_witness :
    (verifyOtp (requestOtp emptyState "a@x" "222222" 0 true).2
        "a@x" "222222" 600001).1 = .expired :=
  (C6_expiry_boundary emptyState "a@x" "222222" 0 600001
    (by decide) (by decide)).2 (by decide)

/-- C7 counterexample: `generateOTP` calls
`crypto.randomInt(100000, 999999)`, whose upper bound is exclusive, so
`999999` is not a possible output, while the claim says every value of
the inclusive range `[100000, 999999]` is. -/
theorem C7_counterexample : (999999 : Nat) ∉ generateOTPRange := by
  simp only [generateOTPRange, Finset.mem_Ico]
  omega

/-- C7 (amended): the OTP generator draws uniformly from the inclusive
range `[100000, 999998]` (all 6-digit values except `999999`): a value
is a possible output exactly when it lies in that range. -/
theorem C7_otp_range (n : Nat) :
    n ∈ generateOTPRange ↔ 100000 ≤ n ∧ n ≤ 999998 := by
  simp only [generateOTPRange, Finset.mem_Ico]
  omega

/-- C9 counterexample: a failed OTP dispatch on a fresh store reports
the delivery failure but leaves the OTP store empty — no record for the
email was ever stored, while the claim says the record remains issued. -/
theorem C9_counterexample :
    requestOtp emptyState "a@x" "333333" 0 false =
      (.deliveryFailed, emptyState) ∧
    lookupA (requestOtp emptyState "a@x" "333333" 0 false).2.otpStore
        "a@x" = none := by decide

/-- C9 (amended): when the email dispatch fails, `request-otp` reports
the delivery failure and stores nothing: the whole state, the OTP store
included, is exactly as it was before the request (`otpStore.set` runs
only after a successful `await sendOTPEmail`). -/
theorem C9_delivery_failure (st : ServerState) (email otp : String)
    (now : Nat) (he : email ≠ "") :
    requestOtp st email otp now false = (.deliveryFailed, st) := by
  simp [requestOtp, he]

/-- C9 witness: a concrete failed dispatch leaving the state untouched. -/
theorem C9_delivery_failure_witness :
    requestOtp stItem "b@y" "444444" 5 false = (.deliveryFailed, stItem) :=
  C9_delivery_failure stItem "b@y" "444444" 5 (by decide)

/-- C1 counterexample: in the primary resolve route, a reporter whose
email has no entry in the verified set still resolves the item
successfully — the route never consults the Verified-Email Set, while
the claim says resolve succeeds only with a live, consumed
verification. -/
theorem C1_counterexample :
    memS stItem.verifiedEmails sampleEmail = false ∧
    (resolveItem stItem "item1" sampleEmail true).1 = .resolvedOk true ∧
    lookupA (resolveItem stItem "item1" sampleEmail true).2.items "item1" =
      some { sampleItem with status := "resolved" } := by decide

/-- C1 (amended): the primary resolve route (server.js) succeeds on the
reporter-email match alone, never touching the Verified-Email Set; only
the enhanced resolve route behaves as claimed: with no live verification
it fails `NotVerified` leaving the state unchanged, and on success it
consumes the requester's verified entry and marks the item resolved. -/
theorem C1_resolve_verification (st : ServerState) (itemId email : String)
    (it : Item) (mailOk : Bool)
    (hid : itemId ≠ "") (he : email ≠ "")
    (hitem : lookupA st.items itemId = some it)
    (hmail : email = it.yourEmail) :
    ((resolveItem st itemId email mailOk).1 = .resolvedOk mailOk ∧
     (resolveItem st itemId email mailOk).2.verifiedEmails =
       st.verifiedEmails) ∧
    (memS st.verifiedEmails email = false →
       resolveItemEnhanced st itemId email = (.notVerified, st)) ∧
    (memS st.verifiedEmails email = true →
       (resolveItemEnhanced st itemId email).1 = .resolvedOk ∧
       memS (resolveItemEnhanced st itemId email).2.verifiedEmails email =
         false ∧
       lookupA (resolveItemEnhanced st itemId email).2.items itemId =
         some { it with status := "resolved" }) := by
  subst hmail
  have hcond : ¬ (it.yourEmail = "" ∨ itemId = "") := by
    rintro (h | h)
    · exact he h
    · exact hid h
  refine ⟨?_, ?_, ?_⟩
  · simp [resolveItem, hitem]
  · intro hm
    simp [resolveItemEnhanced, hcond, hitem, hm]
  · intro hm
    simp [resolveItemEnhanced, hcond, hitem, hm, memS_delS_self,
      lookupA_setA_self]

/-- C1 witness: a concrete verified reporter resolving through the
enhanced route, with the verified entry consumed. -/
theorem C1_resolve_verification_witness :
    (resolveItemEnhanced stItemVerified "item1" sampleEmail).1 =
      .resolvedOk ∧
    memS (resolveItemEnhanced stItemVerified "item1" sampleEmail).2.verifiedEmails
        sampleEmail = false ∧
    lookupA (resolveItemEnhanced stItemVerified "item1" sampleEmail).2.items
        "item1" = some { sampleItem with status := "resolved" } :=
  (C1_resolve_verification stItemVerified "item1" sampleEmail sampleItem true
    (by decide) (by decide) (by decide) (by decide)).2.2 (by decide)

/-- C2 counterexample: with all fields present and the reporter email
verified, `create` with the caller-supplied initial status `resolved`
succeeds and stores the item with `status = "resolved"` — the schema
enum `['lost', 'found', 'resolved']` admits it, while the claim says it
must be rejected. -/
theorem C2_counterexample :
    (createItem stItemVerified "item2" "Keys" "Key bunch" "Lab" "resolved"
        "John" sampleEmail none true).1 = .created ∧
    lookupA (createItem stItemVerified "item2" "Keys" "Key bunch" "Lab"
        "resolved" "John" sampleEmail none true).2.items "item2" =
      some ⟨"Keys", "Key bunch", "Lab", "resolved", none, "John",
            sampleEmail, [], []⟩ := by decide

/-- C2 (amended): `create` validates the caller-supplied initial status
only against the schema enum `['lost', 'found', 'resolved']`: a status
outside the enum fails at save with the state unchanged, and any enum
member — `resolved` included — is accepted. -/
theorem C2_create_status (st : ServerState)
    (newId name description location status yourName yourEmail : String)
    (photo : Option String) (uploadOk : Bool)
    (hn : name ≠ "") (hd : description ≠ "") (hl : location ≠ "")
    (hs : status ≠ "") (hyn : yourName ≠ "") (hye : yourEmail ≠ "")
    (hv : memS st.verifiedEmails yourEmail = true)
    (hu : photo = none ∨ uploadOk = true) :
    (memS statusEnum status = false →
       createItem st newId name description location status yourName
         yourEmail photo uploadOk = (.saveError, st)) ∧
    (memS statusEnum status = true →
       (createItem st newId name description location status yourName
         yourEmail photo uploadOk).1 = .created) := by
  have hcond : ¬ (name = "" ∨ description = "" ∨ location = "" ∨
      status = "" ∨ yourName = "" ∨ yourEmail = "") := by
    rintro (h | h | h | h | h | h)
    · exact hn h
    · exact hd h
    · exact hl h
    · exact hs h
    · exact hyn h
    · exact hye h
  constructor
  · intro hse
    rcases hu with hu | hu <;>
      simp [createItem, hcond, hv, hu, hse]
  · intro hse
    rcases hu with hu | hu <;>
      simp [createItem, hcond, hv, hu, hse]

/-- C2 witness: a status outside the enum (`"stolen"`) is rejected at
save with the state unchanged. -/
theorem C2_create_status_witness :
    createItem stItemVerified "item2" "Keys" "Key bunch" "Lab" "stolen"
        "John" sampleEmail none true = (.saveError, stItemVerified) :=
  (C2_create_status stItemVerified "item2" "Keys" "Key bunch" "Lab" "stolen"
    "John" sampleEmail none true (by decide) (by decide) (by decide)
    (by decide) (by decide) (by decide) (by decide) (Or.inl rfl)).1
    (by decide)

/-- C3 counterexample: resolving `item1`, whose status is already
`resolved`, succeeds again with a success result — no Conflict-class
rejection, while the claim says a second resolve must fail. -/
theorem C3_counterexample :
    (resolveItem stResolved "item1" sampleEmail true).1 =
      .resolvedOk true := by decide

/-- C3 (amended): the resolve route never inspects the current status:
a second resolve call on an already-resolved item by its reporter
succeeds again (re-saving the same `resolved` status) instead of failing
with a Conflict-class error. -/
theorem C3_double_resolve (st : ServerState) (itemId email : String)
    (it : Item) (mailOk : Bool)
    (hitem : lookupA st.items itemId = some it)
    (hst : it.status = "resolved")
    (hmail : email = it.yourEmail) :
    (resolveItem st itemId email mailOk).1 = .resolvedOk mailOk ∧
    lookupA (resolveItem st itemId email mailOk).2.items itemId =
      some it := by
  have hfix : { it with status := "resolved" } = it := by
    cases it
    simp_all
  simp [resolveItem, hitem, hmail, hfix, lookupA_setA_self]

/-- C3 witness: the concrete already-resolved item is resolved a second
time, successfully and unchanged. -/
theorem C3_double_resolve_witness :
    (resolveItem stResolved "item1" sampleEmail false).1 =
      .resolvedOk false ∧
    lookupA (resolveItem stResolved "item1" sampleEmail false).2.items
        "item1" = some { sampleItem with status := "resolved" } :=
  C3_double_resolve stResolved "item1" sampleEmail
    { sampleItem with status := "resolved" } false
    (by decide) (by decide) (by decide)

/-- C4 counterexample: a claim by a verified institutional email is
admitted, yet the email is still in the Verified-Email Set afterwards —
the claim route checks membership with `has` and never deletes, while
the claim says the verification is consumed exactly once. -/
theorem C4_counterexample :
    (recordClaim stItemVerified "item1" "John" sampleEmail "mine" true).1 =
      .submitted true ∧
    memS (recordClaim stItemVerified "item1" "John" sampleEmail "mine"
        true).2.verifiedEmails sampleEmail = true := by decide

/-- C4 (amended): `recordClaim` requires the claimant email to be in the
Verified-Email Set (else `NotVerified`) but does not remove it: the
verified set is unchanged by an accepted claim, so the same verification
can authorize further privileged actions. -/
theorem C4_claim_not_consumed (st : ServerState)
    (itemId name email details : String) (mailOk : Bool) (it : Item)
    (hval : chitkaraEmailValid email = true) :
    (memS st.verifiedEmails email = false →
       recordClaim st itemId name email details mailOk =
         (.notVerified, st)) ∧
    (memS st.verifiedEmails email = true →
     countOf st.claimCounts email < 2 →
     lookupA st.items itemId = some it →
       (recordClaim st itemId name email details mailOk).1 =
         .submitted mailOk ∧
       (recordClaim st itemId name email details mailOk).2.verifiedEmails =
         st.verifiedEmails) := by
  constructor
  · intro hm
    simp [recordClaim, hval, hm]
  · intro hm hq hi
    rw [recordClaim_ok st itemId name email details mailOk it
      (countOf st.claimCounts email) hval hm rfl hq hi]
    exact ⟨rfl, rfl⟩

/-- C4 witness: an unverified claimant is rejected with the state
unchanged. -/
theorem C4_claim_not_consumed_witness :
    recordClaim stItem "item1" "John" sampleEmail "mine" true =
      (.notVerified, stItem) :=
  (C4_claim_not_consumed stItem "item1" "John" sampleEmail "mine" true
    sampleItem (by decide)).1 (by decide)

/-- C10: for a sighting or claim submission that passes the email (and,
for claims, verification) and quota checks, a missing target item yields
`NotFound` with the whole state — the quota counters included — exactly
as before: the counter increment happens only after a successful item
update. -/
theorem C10_notfound_no_mutation (st : ServerState)
    (itemId name phone details email : String) (mailOk : Bool)
    (hval : chitkaraEmailValid email = true)
    (hitem : lookupA st.items itemId = none) :
    (countOf st.seenCounts email < 2 →
       recordSeen st itemId name phone details email mailOk =
         (.notFound, st)) ∧
    (memS st.verifiedEmails email = true →
     countOf st.claimCounts email < 2 →
       recordClaim st itemId name email details mailOk =
         (.notFound, st)) := by
  constructor
  · intro hq
    have hge : ¬ countOf st.seenCounts email ≥ 2 := by omega
    simp [recordSeen, hval, hge, hitem]
  · intro hm hq
    have hge : ¬ countOf st.claimCounts email ≥ 2 := by omega
    simp [recordClaim, hval, hm, hge, hitem]

/-- C10 witness: concrete submissions against a missing item id fail
`NotFound` leaving the state untouched. -/
theorem C10_notfound_no_mutation_witness :
    recordSeen stItemVerified "ghost" "John" "9999999999" "saw it"
        sampleEmail true = (.notFound, stItemVerified) ∧
    recordClaim stItemVerified "ghost" "John" sampleEmail "saw it" true =
      (.notFound, stItemVerified) := by
  have h := C10_notfound_no_mutation stItemVerified "ghost" "John"
    "9999999999" "saw it" sampleEmail true (by decide) (by decide)
  exact ⟨h.1 (by decide), h.2 (by decide) (by decide)⟩

/-- C8: under sequential execution, two otherwise-valid submissions of a
kind (sighting or claim) by an email are admitted, the third is rejected
with `QuotaExceeded` leaving the state unchanged (final counter 2), and
the two kinds' counters are independent: the sighting run leaves the
claim counter untouched and the claim run leaves the sighting counter
untouched. -/
theorem C8_quota_two_per_kind (st : ServerState)
    (itemId name phone details email : String) (mailOk : Bool) (it : Item)
    (r1 r2 r3 : SeenResult × ServerState)
    (c1 c2 c3 : ClaimResult × ServerState)
    (hval : chitkaraEmailValid email = true)
    (hseen : lookupA st.seenCounts email = none)
    (hclaim : lookupA st.claimCounts email = none)
    (hver : memS st.verifiedEmails email = true)
    (hitem : lookupA st.items itemId = some it)
    (h1 : r1 = recordSeen st itemId name phone details email mailOk)
    (h2 : r2 = recordSeen r1.2 itemId name phone details email mailOk)
    (h3 : r3 = recordSeen r2.2 itemId name phone details email mailOk)
    (g1 : c1 = recordClaim st itemId name email details mailOk)
    (g2 : c2 = recordClaim c1.2 itemId name email details mailOk)
    (g3 : c3 = recordClaim c2.2 itemId name email details mailOk) :
    r1.1 = .submitted mailOk ∧ r2.1 = .submitted mailOk ∧
    r3.1 = .quotaExceeded ∧ r3.2 = r2.2 ∧
    countOf r3.2.seenCounts email = 2 ∧
    r3.2.claimCounts = st.claimCounts ∧
    c1.1 = .submitted mailOk ∧ c2.1 = .submitted mailOk ∧
    c3.1 = .quotaExceeded ∧ c3.2 = c2.2 ∧
    countOf c3.2.claimCounts email = 2 ∧
    c3.2.seenCounts = st.seenCounts ∧
    c3.2.verifiedEmails = st.verifiedEmails := by
  have hc0 : countOf st.seenCounts email = 0 := by simp [countOf, hseen]
  have e1 := recordSeen_ok st itemId name phone details email mailOk it 0
    hval hc0 (by omega) hitem
  rw [e1] at h1
  have e2 := recordSeen_ok r1.2 itemId name phone details email mailOk
    { it with seenBy := it.seenBy ++ [⟨name, phone, details, email⟩] } 1
    hval (by rw [h1]; exact countOf_setA_self _ _ _) (by omega)
    (by rw [h1]; exact lookupA_setA_self _ _ _)
  rw [e2] at h2
  have e3 := recordSeen_quota r2.2 itemId name phone details email mailOk
    hval (by rw [h2, h1]; simp [countOf_setA_self])
  rw [e3] at h3
  have kc0 : countOf st.claimCounts email = 0 := by simp [countOf, hclaim]
  have f1 := recordClaim_ok st itemId name email details mailOk it 0
    hval hver kc0 (by omega) hitem
  rw [f1] at g1
  have f2 := recordClaim_ok c1.2 itemId name email details mailOk
    { it with claims := it.claims ++ [⟨name, email, details⟩] } 1
    hval (by rw [g1]; exact hver) (by rw [g1]; exact countOf_setA_self _ _ _)
    (by omega) (by rw [g1]; exact lookupA_setA_self _ _ _)
  rw [f2] at g2
  have f3 := recordClaim_quota c2.2 itemId name email details mailOk
    hval (by rw [g2, g1]; exact hver)
    (by rw [g2, g1]; simp [countOf_setA_self])
  rw [f3] at g3
  subst h1 h2 h3 g1 g2 g3
  refine ⟨rfl, rfl, rfl, rfl, ?_, rfl, rfl, rfl, rfl, rfl, ?_, rfl, rfl⟩
  · simp [countOf_setA_self]
  · simp [countOf_setA_self]

set_option maxRecDepth 8000 in
/-- C8 witness: a concrete run of three sightings and three claims by
the sample verified email against the sample item. -/
theorem C8_quota_two_per_kind_witness :
    (recordSeen stItemVerified "item1" "John" "9999999999" "saw it"
        sampleEmail true).1 = .submitted true ∧
    (recordSeen (recordSeen stItemVerified "item1" "John" "9999999999"
        "saw it" sampleEmail true).2 "item1" "John" "9999999999" "saw it"
        sampleEmail true).1 = .submitted true ∧
    (recordSeen (recordSeen (recordSeen stItemVerified "item1" "John"
        "9999999999" "saw it" sampleEmail true).2 "item1" "John"
        "9999999999" "saw it" sampleEmail true).2 "item1" "John"
        "9999999999" "saw it" sampleEmail true).1 = .quotaExceeded := by
  have h := C8_quota_two_per_kind stItemVerified "item1" "John"
    "9999999999" "saw it" sampleEmail true sampleItem
    (recordSeen stItemVerified "item1" "John" "9999999999" "saw it"
      sampleEmail true)
    (recordSeen (recordSeen stItemVerified "item1" "John" "9999999999"
      "saw it" sampleEmail true).2 "item1" "John" "9999999999" "saw it"
      sampleEmail true)
    (recordSeen (recordSeen (recordSeen stItemVerified "item1" "John"
      "9999999999" "saw it" sampleEmail true).2 "item1" "John"
      "9999999999" "saw it" sampleEmail true).2 "item1" "John"
      "9999999999" "saw it" sampleEmail true)
    (recordClaim stItemVerified "item1" "John" sampleEmail "saw it" true)
    (recordClaim (recordClaim stItemVerified "item1" "John" sampleEmail
      "saw it" true).2 "item1" "John" sampleEmail "saw it" true)
    (recordClaim (recordClaim (recordClaim stItemVerified "item1" "John"
      sampleEmail "saw it" true).2 "item1" "John" sampleEmail "saw it"
      true).2 "item1" "John" sampleEmail "saw it" true)
    (by decide) (by decide) (by decide) (by decide) (by decide)
    rfl rfl rfl rfl rfl rfl
  exact ⟨h.1, h.2.1, h.2.2.1⟩

end CampusNav
